import Mathlib

/-!
Verification of the al-muhaasib satellite validation layer.

This file is a shallow embedding, in Lean 4, of the pre-commit validation
functions of the repository's Rust source:

* `src/src/satellite/src/lib.rs` (module `expense_assertions`): the pipelines
  wired into `assert_set_doc` for the expenses, payments, staff and
  salary_payments collections;
* `src/src/satellite/src/modules/utils/validation_utils.rs`: shared format
  validators;
* `src/src/satellite/src/modules/fees.rs`: fee assignment validation;
* `src/src/satellite/src/modules/banking/mod.rs`: bank transaction and
  transfer validation;
* `src/src/satellite/src/modules/payments/mod.rs`: the payments module
  variant of reference uniqueness.

Modelling conventions:

* Rust `f64` currency amounts are embedded as `ℚ` (the checks under study
  compare sums and differences against a 0.01 tolerance; none of the claims
  hinges on binary floating-point rounding).
* Rust `u64` timestamps are embedded as `ℕ`, `String` as `String`,
  `Option<T>` as `Option T`, `Vec<T>` as `List T`.
* Fallible validators `fn(..) -> Result<(), String>` become
  `Except String Unit`; the `?` operator becomes `Except.bind`.
* `str::split('-')` is embedded as `splitChar '-'` over the string's
  character list (`String.data`), because Lean's `String.splitOn` does not
  reduce well inside the kernel; `splitChar` reproduces Rust's semantics
  (an empty input yields one empty segment, separators at the ends yield
  empty segments).
* `s.trim().is_empty()` is embedded as `trim_is_empty` (true iff every
  character is whitespace), and `opt.is_none() || opt.unwrap().trim().is_empty()`
  as `blankOpt`.
* Rust's `format!("{:.2}", x)` is embedded as `fmt2` (round to two decimal
  places and print); `char::is_numeric` / `char::is_alphanumeric` as
  `Char.isDigit` / `Char.isAlphanum` (the ASCII fragment, which is the one
  the reference formats use).
* The datastore's `list_docs` query is not executed here: validators that
  query the store take the returned document keys as an explicit
  `List String` argument, and `ic_cdk::api::time()` never occurs in the
  functions embedded below.
-/

/-- Rust `str::split(c)` over a character list: splits at every occurrence of
`c`, keeping empty segments (so the result always has one more segment than
there are separators). -/
def splitChar (c : Char) : List Char → List (List Char)
  | [] => [[]]
  | x :: xs =>
    if x = c then [] :: splitChar c xs
    else
      match splitChar c xs with
      | [] => [[x]]
      | h :: t => (x :: h) :: t

/-- Value of an all-digit character list, as Rust `str::parse::<u32>()` reads
it (the sources only call `parse` after checking every character is a digit). -/
def digitsToNat (l : List Char) : Nat :=
  l.foldl (fun n c => n * 10 + (c.toNat - '0'.toNat)) 0

/-- Rust `s.trim().is_empty()`: true iff the string has no non-whitespace
character. -/
def trim_is_empty (s : String) : Bool :=
  s.data.all Char.isWhitespace

/-- Rust `opt.is_none() || opt.as_ref().unwrap().trim().is_empty()`. -/
def blankOpt (s : Option String) : Bool :=
  match s with
  | none => true
  | some v => trim_is_empty v

/-- Rust `format!("{:.2}", x)`: the amount rounded to two decimal places,
with exactly two digits after the point. -/
def fmt2 (x : ℚ) : String :=
  let n : ℤ := round (x * 100)
  let m : ℕ := n.natAbs
  (if n < 0 then "-" else "") ++ toString (m / 100) ++ "." ++
    (if m % 100 < 10 then "0" else "") ++ toString (m % 100)

namespace expense_assertions

/-- `ExpenseData` of `src/src/satellite/src/lib.rs`. -/
structure ExpenseData where
  category_id : String
  category_name : String
  category : String
  amount : ℚ
  description : String
  purpose : Option String
  payment_method : String
  payment_date : String
  vendor_name : Option String
  vendor_contact : Option String
  reference : String
  invoice_url : Option String
  status : String
  approved_by : Option String
  approved_at : Option ℕ
  notes : Option String
  recorded_by : String
  created_at : ℕ
  updated_at : ℕ

/-- `PaymentAllocation` of `src/src/satellite/src/lib.rs`. -/
structure PaymentAllocation where
  category_id : String
  category_name : String
  fee_type : String
  amount : ℚ

/-- `PaymentData` of `src/src/satellite/src/lib.rs`. -/
structure PaymentData where
  student_id : String
  student_name : String
  class_id : String
  class_name : String
  fee_assignment_id : String
  amount : ℚ
  payment_method : String
  payment_date : String
  fee_allocations : List PaymentAllocation
  reference : String
  transaction_id : Option String
  paid_by : Option String
  status : String
  notes : Option String
  receipt_url : Option String
  recorded_by : String
  created_at : ℕ
  updated_at : ℕ

/-- `PaymentAllowanceItem` of `src/src/satellite/src/lib.rs`. -/
structure PaymentAllowanceItem where
  name : String
  amount : ℚ

/-- `PaymentDeductionItem` of `src/src/satellite/src/lib.rs`. -/
structure PaymentDeductionItem where
  name : String
  amount : ℚ

/-- `SalaryPaymentData` of `src/src/satellite/src/lib.rs`. -/
structure SalaryPaymentData where
  staff_id : String
  staff_name : String
  staff_number : String
  month : String
  year : String
  basic_salary : ℚ
  allowances : List PaymentAllowanceItem
  total_gross : ℚ
  deductions : List PaymentDeductionItem
  total_deductions : ℚ
  net_pay : ℚ
  payment_method : String
  payment_date : String
  reference : String
  status : String
  recorded_by : String
  approved_by : Option String
  created_at : ℕ
  updated_at : ℕ

/-- The `valid_transitions` map of `validate_expense_status_transition`
(lib.rs:1710-1715). -/
def expense_valid_transitions : String → Option (List String)
  | "pending" => some ["approved", "rejected"]
  | "approved" => some ["paid"]
  | "rejected" => some []
  | "paid" => some []
  | _ => none

/-- The status-specific checks that follow the transition check in
`validate_expense_status_transition` (lib.rs:1736-1751). -/
def expenseCompanionOnTransition (proposed : ExpenseData) : Except String Unit :=
  match proposed.status with
  | "approved" =>
    if proposed.approved_by = none then
      .error "Approved expenses must have approved_by field set"
    else if proposed.approved_at = none then
      .error "Approved expenses must have approved_at timestamp"
    else .ok ()
  | "rejected" =>
    if blankOpt proposed.notes then
      .error "Rejected expenses must include rejection reason in notes"
    else .ok ()
  | _ => .ok ()

/-- `validate_expense_status_transition` (lib.rs:1702-1760). The previous
document, when present, is the already-decoded `before` record. -/
def validate_expense_status_transition (before : Option ExpenseData)
    (proposed : ExpenseData) : Except String Unit :=
  match before with
  | some before_data =>
    (if before_data.status ≠ proposed.status then
      match expense_valid_transitions before_data.status with
      | some allowed_next_states =>
        if ¬ allowed_next_states.contains proposed.status then
          .error ("Invalid status transition from '" ++ before_data.status ++
            "' to '" ++ proposed.status ++ "'. Allowed transitions: [" ++
            String.intercalate ", " allowed_next_states ++ "]")
        else .ok ()
      | none =>
        .error ("Unknown current status: '" ++ before_data.status ++ "'")
    else .ok ()) >>= fun _ =>
    expenseCompanionOnTransition proposed
  | none =>
    if proposed.status ≠ "pending" then
      .error "New expenses must have status 'pending'"
    else .ok ()

/-- The `valid_statuses` list of `validate_payment_status_transitions`
(lib.rs:782). -/
def payment_valid_statuses : List String :=
  ["pending", "confirmed", "cancelled", "refunded"]

/-- The `valid_transitions` map of `validate_payment_status_transitions`
(lib.rs:796-801). -/
def payment_valid_transitions : String → Option (List String)
  | "pending" => some ["confirmed", "cancelled"]
  | "confirmed" => some ["refunded"]
  | "cancelled" => some []
  | "refunded" => some []
  | _ => none

/-- The status-specific checks that follow the transition check in
`validate_payment_status_transitions` (lib.rs:819-832). -/
def paymentCompanionOnTransition (payment : PaymentData) : Except String Unit :=
  match payment.status with
  | "cancelled" =>
    if blankOpt payment.notes then
      .error "Cancelled payments must include cancellation reason in notes"
    else .ok ()
  | "refunded" =>
    if blankOpt payment.notes then
      .error "Refunded payments must include refund reason in notes"
    else .ok ()
  | _ => .ok ()

/-- `validate_payment_status_transitions` (lib.rs:778-841). -/
def validate_payment_status_transitions (before : Option PaymentData)
    (payment : PaymentData) : Except String Unit :=
  if ¬ payment_valid_statuses.contains payment.status then
    .error ("Invalid payment status '" ++ payment.status ++
      "'. Must be one of: " ++ String.intercalate ", " payment_valid_statuses)
  else
    match before with
    | some before_payment =>
      (if before_payment.status ≠ payment.status then
        match payment_valid_transitions before_payment.status with
        | some allowed_next_states =>
          if ¬ allowed_next_states.contains payment.status then
            .error ("Invalid status transition from '" ++ before_payment.status ++
              "' to '" ++ payment.status ++ "'. Allowed: [" ++
              String.intercalate ", " allowed_next_states ++ "]")
          else .ok ()
        | none => .ok ()
      else .ok ()) >>= fun _ =>
      paymentCompanionOnTransition payment
    | none =>
      if ¬ (["pending", "confirmed"].contains payment.status) then
        .error "New payments must have status 'pending' or 'confirmed'"
      else .ok ()

/-- The `valid_statuses` list of `validate_salary_status_transitions`
(lib.rs:1573). -/
def salary_valid_statuses : List String := ["pending", "approved", "paid"]

/-- The `valid_transitions` map of `validate_salary_status_transitions`
(lib.rs:1587-1591). -/
def salary_valid_transitions : String → Option (List String)
  | "pending" => some ["approved"]
  | "approved" => some ["paid"]
  | "paid" => some []
  | _ => none

/-- The status-specific check that follows the transition check in
`validate_salary_status_transitions` (lib.rs:1609-1612). -/
def salaryCompanionOnTransition (salary : SalaryPaymentData) : Except String Unit :=
  if salary.status = "approved" ∧ salary.approved_by = none then
    .error "Approved salary payments must have approved_by field set"
  else .ok ()

/-- `validate_salary_status_transitions` (lib.rs:1569-1621). -/
def validate_salary_status_transitions (before : Option SalaryPaymentData)
    (salary : SalaryPaymentData) : Except String Unit :=
  if ¬ salary_valid_statuses.contains salary.status then
    .error ("Invalid salary status '" ++ salary.status ++
      "'. Must be one of: " ++ String.intercalate ", " salary_valid_statuses)
  else
    match before with
    | some before_salary =>
      (if before_salary.status ≠ salary.status then
        match salary_valid_transitions before_salary.status with
        | some allowed_next_states =>
          if ¬ allowed_next_states.contains salary.status then
            .error ("Invalid status transition from '" ++ before_salary.status ++
              "' to '" ++ salary.status ++ "'. Allowed: [" ++
              String.intercalate ", " allowed_next_states ++ "]")
          else .ok ()
        | none => .ok ()
      else .ok ()) >>= fun _ =>
      salaryCompanionOnTransition salary
    | none =>
      if salary.status ≠ "pending" then
        .error "New salary payments must have status 'pending'"
      else .ok ()

/-- The `valid_fee_types` list of `validate_payment_allocations`
(lib.rs:882-886). -/
def valid_fee_types : List String :=
  ["tuition", "uniform", "feeding", "transport", "books",
   "sports", "development", "examination", "pta", "computer",
   "library", "laboratory", "lesson", "other"]

/-- The per-allocation loop of `validate_payment_allocations`
(lib.rs:866-896). The Rust loop also inserts each fee type into a
`HashSet` that is never read afterwards; that dead state is omitted. -/
def allocationItemsLoop : List PaymentAllocation → ℕ → Except String Unit
  | [], _ => .ok ()
  | allocation :: rest, i =>
    if trim_is_empty allocation.category_id then
      .error ("Fee allocation " ++ toString (i + 1) ++ " must have a category ID")
    else if trim_is_empty allocation.category_name then
      .error ("Fee allocation " ++ toString (i + 1) ++ " must have a category name")
    else if trim_is_empty allocation.fee_type then
      .error ("Fee allocation " ++ toString (i + 1) ++ " must have a fee type")
    else if ¬ valid_fee_types.contains allocation.fee_type then
      .error ("Invalid fee type '" ++ allocation.fee_type ++ "' in allocation " ++
        toString (i + 1) ++ ". Must be one of: " ++
        String.intercalate ", " valid_fee_types)
    else allocationItemsLoop rest (i + 1)

/-- `validate_payment_allocations` (lib.rs:844-899). -/
def validate_payment_allocations (payment : PaymentData) : Except String Unit :=
  if payment.fee_allocations.isEmpty then
    .error "Payment must have at least one fee allocation"
  else if 20 < payment.fee_allocations.length then
    .error "Payment cannot have more than 20 fee allocations"
  else
    let total_allocated : ℚ := (payment.fee_allocations.map fun alloc => alloc.amount).sum
    if 0.01 < |payment.amount - total_allocated| then
      .error ("Payment amount (₦" ++ fmt2 payment.amount ++
        ") must match sum of fee allocations (₦" ++ fmt2 total_allocated ++ ")")
    else allocationItemsLoop payment.fee_allocations 0

/-- The allowance loop of `validate_salary_amounts_and_calculations`
(lib.rs:1436-1454): per-item name/amount/duplicate checks, accumulating the
total (`seen` is the `HashSet` of names already inserted, `i` the index). -/
def allowancesLoop : List PaymentAllowanceItem → ℕ → List String → ℚ →
    Except String ℚ
  | [], _, _, total => .ok total
  | allowance :: rest, i, seen, total =>
    if trim_is_empty allowance.name then
      .error ("Allowance " ++ toString (i + 1) ++ " name is required")
    else if allowance.amount ≤ 0 then
      .error ("Allowance " ++ toString (i + 1) ++ " amount must be greater than zero")
    else if seen.contains allowance.name then
      .error ("Duplicate allowance name: '" ++ allowance.name ++ "'")
    else allowancesLoop rest (i + 1) (allowance.name :: seen) (total + allowance.amount)

/-- The deduction loop of `validate_salary_amounts_and_calculations`
(lib.rs:1461-1479). -/
def deductionsLoop : List PaymentDeductionItem → ℕ → List String → ℚ →
    Except String ℚ
  | [], _, _, total => .ok total
  | deduction :: rest, i, seen, total =>
    if trim_is_empty deduction.name then
      .error ("Deduction " ++ toString (i + 1) ++ " name is required")
    else if deduction.amount ≤ 0 then
      .error ("Deduction " ++ toString (i + 1) ++ " amount must be greater than zero")
    else if seen.contains deduction.name then
      .error ("Duplicate deduction name: '" ++ deduction.name ++ "'")
    else deductionsLoop rest (i + 1) (deduction.name :: seen) (total + deduction.amount)

/-- `validate_salary_amounts_and_calculations` (lib.rs:1421-1516). -/
def validate_salary_amounts_and_calculations (salary : SalaryPaymentData) :
    Except String Unit :=
  if salary.basic_salary ≤ 0 then
    .error "Basic salary must be greater than zero"
  else if 10000000 < salary.basic_salary then
    .error "Basic salary cannot exceed ₦10,000,000"
  else if 20 < salary.allowances.length then
    .error "Salary payment cannot have more than 20 allowances"
  else
    match allowancesLoop salary.allowances 0 [] 0 with
    | .error e => .error e
    | .ok calculated_allowances_total =>
      if 20 < salary.deductions.length then
        .error "Salary payment cannot have more than 20 deductions"
      else
        match deductionsLoop salary.deductions 0 [] 0 with
        | .error e => .error e
        | .ok calculated_deductions_total =>
          let expected_gross := salary.basic_salary + calculated_allowances_total
          if 0.01 < |salary.total_gross - expected_gross| then
            .error ("Total gross (₦" ++ fmt2 salary.total_gross ++
              ") doesn't match basic salary + allowances (₦" ++
              fmt2 expected_gross ++ ")")
          else if 0.01 < |salary.total_deductions - calculated_deductions_total| then
            .error ("Total deductions (₦" ++ fmt2 salary.total_deductions ++
              ") doesn't match sum of deductions (₦" ++
              fmt2 calculated_deductions_total ++ ")")
          else
            let expected_net_pay := salary.total_gross - salary.total_deductions
            if 0.01 < |salary.net_pay - expected_net_pay| then
              .error ("Net pay (₦" ++ fmt2 salary.net_pay ++
                ") doesn't match gross - deductions (₦" ++
                fmt2 expected_net_pay ++ ")")
            else if salary.net_pay < 0 then
              .error "Net pay cannot be negative (deductions exceed gross pay)"
            else if 15000000 < salary.net_pay then
              .error "Net pay cannot exceed ₦15,000,000 (sanity check)"
            else .ok ()

/-- `is_valid_payment_reference` (lib.rs:2072-2089): `PAY-` + 4-digit year +
`-` + 8 alphanumeric characters, 17 characters in all. -/
def is_valid_payment_reference (reference : String) : Bool :=
  if reference.length ≠ 17 then false
  else
    match splitChar '-' reference.data with
    | [p0, p1, p2] =>
      if p0 ≠ "PAY".data then false
      else if ¬ (p1.length = 4 ∧ p1.all Char.isDigit) then false
      else if ¬ (p2.length = 8 ∧ p2.all Char.isAlphanum) then false
      else true
    | _ => false

/-- `is_valid_salary_reference` of `src/src/satellite/src/lib.rs` (2149-2171).
Its comment describes the format `SAL-YYYY-MM-XXXXXX`, but its length check
demands exactly 16 characters. -/
def is_valid_salary_reference (reference : String) : Bool :=
  if reference.length ≠ 16 then false
  else
    match splitChar '-' reference.data with
    | [p0, p1, p2, p3] =>
      if p0 ≠ "SAL".data then false
      else if ¬ (p1.length = 4 ∧ p1.all Char.isDigit) then false
      else if ¬ (p2.length = 2 ∧ p2.all Char.isDigit) then false
      else
        let month := digitsToNat p2
        if month < 1 ∨ 12 < month then false
        else if ¬ (p3.length = 6 ∧ p3.all Char.isAlphanum) then false
        else true
    | _ => false

/-- The conflict loop shared by the reference/natural-key uniqueness checks:
iterate over the keys the store query returned, skip the document being
updated, and reject on any other match (`for (doc_key, _) in existing.items`). -/
def refConflictScan (is_update : Bool) (ctx_key : String) (err : String) :
    List String → Except String Unit
  | [] => .ok ()
  | doc_key :: rest =>
    if is_update ∧ doc_key = ctx_key then refConflictScan is_update ctx_key err rest
    else .error err

/-- `validate_payment_reference_uniqueness` (lib.rs:902-938). `existing_keys`
is the list of document keys returned by the `list_docs` query for the
pattern `reference=<reference>;`; `before_present` is
`context.data.data.before.is_some()`; `ctx_key` is `context.data.key`. -/
def validate_payment_reference_uniqueness (existing_keys : List String)
    (before_present : Bool) (ctx_key : String) (payment : PaymentData) :
    Except String Unit :=
  if ¬ "PAY-".data.isPrefixOf payment.reference.data then
    .error "Payment reference must start with 'PAY-'"
  else if ¬ is_valid_payment_reference payment.reference then
    .error "Payment reference must follow format: PAY-YYYY-XXXXXXXX"
  else
    refConflictScan before_present ctx_key
      ("Payment reference '" ++ payment.reference ++ "' already exists")
      existing_keys

/-- `validate_salary_reference_uniqueness` (lib.rs:1623-1659); the format
half of the check, which delegates to the length-16 `is_valid_salary_reference`
above, plus the conflict scan. -/
def validate_salary_reference_uniqueness (existing_keys : List String)
    (before_present : Bool) (ctx_key : String) (salary : SalaryPaymentData) :
    Except String Unit :=
  if ¬ "SAL-".data.isPrefixOf salary.reference.data then
    .error "Salary reference must start with 'SAL-'"
  else if ¬ is_valid_salary_reference salary.reference then
    .error "Salary reference must follow format: SAL-YYYY-MM-XXXXXX"
  else
    refConflictScan before_present ctx_key
      ("Salary reference '" ++ salary.reference ++ "' already exists")
      existing_keys

end expense_assertions

namespace validation_utils

/-- `is_valid_salary_reference` of
`src/src/satellite/src/modules/utils/validation_utils.rs` (189-212):
`SAL-` + 4-digit year + `-` + 2-digit month (01-12) + `-` + 6 alphanumeric
characters, 18 characters in all. -/
def is_valid_salary_reference (reference : String) : Bool :=
  if reference.length ≠ 18 then false
  else
    match splitChar '-' reference.data with
    | [p0, p1, p2, p3] =>
      if p0 ≠ "SAL".data then false
      else if ¬ (p1.length = 4 ∧ p1.all Char.isDigit) then false
      else if ¬ (p2.length = 2 ∧ p2.all Char.isDigit) then false
      else
        let month := digitsToNat p2
        if month < 1 ∨ 12 < month then false
        else if ¬ (p3.length = 6 ∧ p3.all Char.isAlphanum) then false
        else true
    | _ => false

end validation_utils

namespace fees

/-- `FeeItemData` of `src/src/satellite/src/modules/fees.rs`. -/
structure FeeItemData where
  category_id : String
  category_name : String
  fee_type : String
  amount : ℚ
  amount_paid : ℚ
  balance : ℚ
  is_mandatory : Bool
  is_optional : Option Bool
  is_selected : Option Bool

/-- `StudentFeeAssignmentData` of `src/src/satellite/src/modules/fees.rs`. -/
structure StudentFeeAssignmentData where
  student_id : String
  student_name : String
  class_id : String
  fee_structure_id : String
  academic_year : String
  term : String
  fee_items : List FeeItemData
  original_amount : Option ℚ
  total_amount : ℚ
  amount_paid : ℚ
  balance : ℚ
  status : String
  due_date : Option String
  scholarship_id : Option String
  scholarship_name : Option String
  scholarship_type : Option String
  scholarship_value : Option ℚ
  discount_amount : Option ℚ

/-- `validate_iso_date` of `fees.rs` (319-361). -/
def validate_iso_date (date_str : String) : Except String Unit :=
  if date_str.length ≠ 10 then
    .error ("Invalid date format: " ++ date_str ++ ". Expected YYYY-MM-DD")
  else
    match splitChar '-' date_str.data with
    | [p0, p1, p2] =>
      if ¬ (p0.length = 4 ∧ p0.all Char.isDigit) then
        .error ("Invalid year in date: " ++ date_str)
      else if ¬ (p1.length = 2 ∧ p1.all Char.isDigit) then
        .error ("Invalid month in date: " ++ date_str)
      else if ¬ (p2.length = 2 ∧ p2.all Char.isDigit) then
        .error ("Invalid day in date: " ++ date_str)
      else
        let year := digitsToNat p0
        let month := digitsToNat p1
        let day := digitsToNat p2
        if year < 1900 ∨ 2100 < year then
          .error ("Year out of range: " ++ toString year)
        else if month < 1 ∨ 12 < month then
          .error ("Month out of range: " ++ toString month)
        else if day < 1 ∨ 31 < day then
          .error ("Day out of range: " ++ toString day)
        else .ok ()
    | _ => .error ("Invalid date format: " ++ date_str ++ ". Expected YYYY-MM-DD")

/-- The fee-item loop of `validate_student_fee_assignment` (fees.rs:96-115). -/
def feeItemsLoop : List FeeItemData → Except String Unit
  | [] => .ok ()
  | item :: rest =>
    if trim_is_empty item.category_id then
      .error "feeItem must have categoryId"
    else if item.amount < 0 then
      .error ("Fee item " ++ item.category_id ++ " has negative amount")
    else
      let is_optional := item.is_optional.getD false
      if item.is_mandatory ∧ is_optional then
        .error ("Fee item " ++ item.category_id ++ " cannot be both mandatory and optional")
      else feeItemsLoop rest

/-- The scholarship block of `validate_student_fee_assignment`
(fees.rs:119-170), entered only when `scholarship_id` is present. The Rust
prints the amounts of the `totalAmount` message with `{}` (plain `Display`);
`toString` on `ℚ` stands in for that rendering. -/
def feeScholarshipCheck (data : StudentFeeAssignmentData) : Except String Unit :=
  match data.scholarship_id with
  | none => .ok ()
  | some scholarship_id =>
    if trim_is_empty scholarship_id then
      .error "scholarshipId cannot be empty string"
    else
      match data.scholarship_type with
      | none => .error "scholarshipType is required when scholarshipId is present"
      | some scholarship_type =>
        if ¬ (["percentage", "fixed_amount", "waiver"].contains scholarship_type) then
          .error "scholarshipType must be 'percentage', 'fixed_amount', or 'waiver'"
        else
          match data.discount_amount with
          | none => .error "discountAmount is required when scholarship is applied"
          | some discount_amount =>
            if discount_amount < 0 then
              .error "discountAmount cannot be negative"
            else
              match data.original_amount with
              | none => .error "originalAmount is required when scholarship is applied"
              | some orig_amt =>
                if orig_amt < discount_amount then
                  .error "discountAmount cannot exceed originalAmount"
                else
                  (if scholarship_type = "percentage" then
                    match data.scholarship_value with
                    | none => .error "scholarshipValue is required for percentage type"
                    | some scholarship_value =>
                      if scholarship_value < 0 ∨ 100 < scholarship_value then
                        .error "scholarshipValue for percentage must be between 0 and 100"
                      else .ok ()
                  else .ok ()) >>= fun _ =>
                  let expected_total := orig_amt - discount_amount
                  if 0.01 < |data.total_amount - expected_total| then
                    .error ("totalAmount (" ++ toString data.total_amount ++
                      ") should equal originalAmount (" ++ toString orig_amt ++
                      ") minus discountAmount (" ++ toString discount_amount ++ ")")
                  else .ok ()

/-- The required-field block of `validate_student_fee_assignment`
(fees.rs:69-94): identifier presence, term membership, non-empty fee items. -/
def feeRequiredFieldsCheck (data : StudentFeeAssignmentData) : Except String Unit :=
  if trim_is_empty data.student_id then .error "studentId is required"
  else if trim_is_empty data.student_name then .error "studentName is required"
  else if trim_is_empty data.class_id then .error "classId is required"
  else if trim_is_empty data.fee_structure_id then .error "feeStructureId is required"
  else if trim_is_empty data.academic_year then .error "academicYear is required"
  else if ¬ (["first", "second", "third"].contains data.term) then
    .error "term must be 'first', 'second', or 'third'"
  else if data.fee_items.isEmpty then .error "feeItems cannot be empty"
  else .ok ()

/-- The amount/status block of `validate_student_fee_assignment`
(fees.rs:172-217): non-negative amounts, balance reconciliation, status
vocabulary, the four status-vs-amount rules, and the due-date format. -/
def feeAmountsStatusCheck (data : StudentFeeAssignmentData) : Except String Unit :=
  if data.total_amount < 0 then .error "totalAmount cannot be negative"
  else if data.amount_paid < 0 then .error "amountPaid cannot be negative"
  else if 0.01 < |data.balance - (data.total_amount - data.amount_paid)| then
    .error ("balance (" ++ toString data.balance ++
      ") must equal totalAmount (" ++ toString data.total_amount ++
      ") minus amountPaid (" ++ toString data.amount_paid ++ ")")
  else if ¬ (["unpaid", "partial", "paid", "overpaid"].contains data.status) then
    .error "status must be 'unpaid', 'partial', 'paid', or 'overpaid'"
  else if data.amount_paid = 0 ∧ data.status ≠ "unpaid" then
    .error "status must be 'unpaid' when amountPaid is 0"
  else if data.balance = 0 ∧ data.status ≠ "paid" then
    .error "status must be 'paid' when balance is 0"
  else if data.balance < 0 ∧ data.status ≠ "overpaid" then
    .error "status must be 'overpaid' when balance is negative"
  else if 0 < data.amount_paid ∧ 0 < data.balance ∧ data.status ≠ "partial" then
    .error "status must be 'partial' when partially paid"
  else
    match data.due_date with
    | some due_date => validate_iso_date due_date
    | none => .ok ()

/-- `validate_student_fee_assignment` of `fees.rs` (65-219), after decoding:
the required-field block, then the fee-item loop, then the scholarship block,
then the amount/status block, in source order. -/
def validate_student_fee_assignment (data : StudentFeeAssignmentData) :
    Except String Unit :=
  feeRequiredFieldsCheck data >>= fun _ =>
  feeItemsLoop data.fee_items >>= fun _ =>
  feeScholarshipCheck data >>= fun _ =>
  feeAmountsStatusCheck data

end fees

namespace banking

/-- The fields of a bank transaction document that `validate_bank_transaction`
consults through `data.get(..)`; each is optional because the document is an
untyped map in the source. -/
structure BankTransactionData where
  debitAmount : Option ℚ
  creditAmount : Option ℚ
  balance : Option ℚ
  status : Option String
  isReconciled : Option Bool

/-- The fields of an inter-account transfer document that `validate_transfer`
consults through `data.get(..)`. -/
structure TransferData where
  fromAccountId : Option String
  toAccountId : Option String
  amount : Option ℚ
  status : Option String
  approvedBy : Option String
  approvedAt : Option ℕ

/-- `MAX_SINGLE_TRANSACTION` of `banking/mod.rs` (15). -/
def MAX_SINGLE_TRANSACTION : ℚ := 1000000000

/-- `MAX_TRANSFER_WITHOUT_APPROVAL` of `banking/mod.rs` (16). -/
def MAX_TRANSFER_WITHOUT_APPROVAL : ℚ := 5000000

/-- `OVERDRAFT_ALERT_THRESHOLD` of `banking/mod.rs` (17). -/
def OVERDRAFT_ALERT_THRESHOLD : ℚ := -10000000

/-- Modelled from the spec: `validate_positive_amount` is imported by
`banking/mod.rs` from `validation_utils`, but no definition of it exists
under the repository's source files. The spec requires monetary amounts to be
strictly positive ("amount > 0 unless explicitly a 'can be zero' field"), and
the call site reads `validate_positive_amount(amount, "Transfer amount")`. -/
def validate_positive_amount (amount : ℚ) (label : String) : Except String Unit :=
  if amount ≤ 0 then .error (label ++ " must be greater than zero")
  else .ok ()

/-- `validate_bank_transaction` of `banking/mod.rs` (25-90). -/
def validate_bank_transaction (data : BankTransactionData) : Except String Unit :=
  match data.debitAmount with
  | none => .error "Invalid debit amount"
  | some debit =>
    match data.creditAmount with
    | none => .error "Invalid credit amount"
    | some credit =>
      if debit < 0 ∨ credit < 0 then
        .error "SECURITY: Transaction amounts cannot be negative"
      else if 0 < debit ∧ 0 < credit then
        .error "SECURITY: Transaction cannot have both debit and credit amounts"
      else if debit = 0 ∧ credit = 0 then
        .error "SECURITY: Transaction must have a non-zero amount"
      else
        let transaction_amount := max debit credit
        if MAX_SINGLE_TRANSACTION < transaction_amount then
          .error ("FRAUD ALERT: Transaction amount ₦" ++ fmt2 transaction_amount ++
            " exceeds maximum limit of ₦" ++ fmt2 MAX_SINGLE_TRANSACTION ++
            ". Contact administrator.")
        else
          (match data.balance with
          | some balance =>
            if balance < OVERDRAFT_ALERT_THRESHOLD then
              .error ("FRAUD ALERT: Account balance ₦" ++ fmt2 balance ++
                " exceeds reasonable overdraft limit. Verify account status.")
            else .ok ()
          | none => .ok ()) >>= fun _ =>
          match data.status with
          | some status =>
            if ¬ (["pending", "cleared", "reconciled"].contains status) then
              .error ("Invalid status '" ++ status ++
                "'. Must be: pending, cleared, or reconciled")
            else if status = "reconciled" ∧ ¬ (data.isReconciled.getD false) then
              .error "AUDIT: Status is 'reconciled' but isReconciled flag is false"
            else .ok ()
          | none => .ok ()

/-- `validate_transfer` of `banking/mod.rs` (98-162). -/
def validate_transfer (data : TransferData) : Except String Unit :=
  match data.fromAccountId with
  | none => .error "Missing fromAccountId"
  | some from_id =>
    match data.toAccountId with
    | none => .error "Missing toAccountId"
    | some to_id =>
      if from_id = to_id then
        .error "SECURITY: Cannot transfer to the same account. Self-transfers are prohibited."
      else
        match data.amount with
        | none => .error "Invalid amount"
        | some amount =>
          validate_positive_amount amount "Transfer amount" >>= fun _ =>
          if MAX_SINGLE_TRANSACTION < amount then
            .error ("FRAUD ALERT: Transfer amount ₦" ++ fmt2 amount ++
              " exceeds maximum limit. Contact administrator.")
          else
            match data.status with
            | none => .error "Missing status"
            | some status =>
              if ¬ (["pending", "approved", "completed", "rejected", "cancelled"].contains status) then
                .error ("Invalid status '" ++ status ++ "'")
              else if MAX_TRANSFER_WITHOUT_APPROVAL < amount ∧ status = "completed" then
                if blankOpt data.approvedBy then
                  .error ("APPROVAL REQUIRED: Transfers over ₦" ++
                    fmt2 MAX_TRANSFER_WITHOUT_APPROVAL ++
                    " require approval before completion")
                else
                  match data.approvedAt with
                  | none => .error "AUDIT: Approved transfers must have approvedAt timestamp"
                  | some _ => .ok ()
              else .ok ()

end banking

namespace payments

/-- `validate_payment_reference_uniqueness` of
`src/src/satellite/src/modules/payments/mod.rs` (212-248). This variant
computes `is_update` from `!context.data.key.is_empty()` instead of
`context.data.data.before.is_some()`. -/
def validate_payment_reference_uniqueness (existing_keys : List String)
    (ctx_key : String) (payment : expense_assertions.PaymentData) :
    Except String Unit :=
  if ¬ "PAY-".data.isPrefixOf payment.reference.data then
    .error "Payment reference must start with 'PAY-'"
  else if ¬ expense_assertions.is_valid_payment_reference payment.reference then
    .error "Payment reference must follow format: PAY-YYYY-XXXXXXXX"
  else
    expense_assertions.refConflictScan (ctx_key != "") ctx_key
      ("Payment reference '" ++ payment.reference ++ "' already exists")
      existing_keys

end payments

/-! ### Concrete records used to exercise the validators at specific inputs -/

/-- The expense of the spec's scenario: status `pending`, amount 1500.00,
reference `EXP-2024-AB12CD34`, no approval fields. -/
def expensePending : expense_assertions.ExpenseData :=
  { category_id := "cat-1", category_name := "Maintenance", category := "maintenance",
    amount := 1500, description := "Generator repair", purpose := none,
    payment_method := "cash", payment_date := "2024-03-04",
    vendor_name := none, vendor_contact := none,
    reference := "EXP-2024-AB12CD34", invoice_url := none,
    status := "pending", approved_by := none, approved_at := none,
    notes := none, recorded_by := "user-1", created_at := 1, updated_at := 1 }

/-- The same expense proposed as `approved` with `approved_by` absent. -/
def expenseApprovedNoApprover : expense_assertions.ExpenseData :=
  { expensePending with status := "approved", approved_at := some 2 }

/-- A committed expense in the terminal status `paid`. -/
def expensePaid : expense_assertions.ExpenseData :=
  { expensePending with status := "paid", approved_by := some "admin", approved_at := some 2 }

/-- An attempt to move a paid expense back to `pending`. -/
def expenseReopen : expense_assertions.ExpenseData :=
  { expensePaid with status := "pending" }

/-- A payment whose two fee allocations sum exactly to its amount. -/
def paymentAllocGood : expense_assertions.PaymentData :=
  { student_id := "stu-1", student_name := "Ada Obi", class_id := "jss1",
    class_name := "JSS 1", fee_assignment_id := "fa-1", amount := 5000,
    payment_method := "cash", payment_date := "2024-03-04",
    fee_allocations := [⟨"cat-1", "Tuition", "tuition", 3000⟩,
                        ⟨"cat-2", "Books", "books", 2000⟩],
    reference := "PAY-2024-AB12CD34", transaction_id := none, paid_by := none,
    status := "pending", notes := none, receipt_url := none,
    recorded_by := "user-1", created_at := 1, updated_at := 1 }

/-- The same payment with one allocation dropped: the sum is 3000 against a
declared amount of 5000. -/
def paymentAllocBad : expense_assertions.PaymentData :=
  { paymentAllocGood with fee_allocations := [⟨"cat-1", "Tuition", "tuition", 3000⟩] }

/-- A committed payment in the terminal status `cancelled`. -/
def paymentCancelled : expense_assertions.PaymentData :=
  { paymentAllocGood with status := "cancelled", notes := some "duplicate entry" }

/-- A salary payment whose declared totals reconcile exactly:
gross 250000 = 200000 + 50000, net 220000 = 250000 - 30000. -/
def salaryOk : expense_assertions.SalaryPaymentData :=
  { staff_id := "st-1", staff_name := "Bola Ade", staff_number := "STF-001",
    month := "05", year := "2024", basic_salary := 200000,
    allowances := [⟨"Housing", 50000⟩], total_gross := 250000,
    deductions := [⟨"Tax", 30000⟩], total_deductions := 30000, net_pay := 220000,
    payment_method := "bank_transfer", payment_date := "2024-05-28",
    reference := "SAL-2024-05-AB12CD", status := "pending",
    recorded_by := "user-1", approved_by := none, created_at := 1, updated_at := 1 }

/-- A committed salary payment in the terminal status `paid`. -/
def salaryPaid : expense_assertions.SalaryPaymentData :=
  { salaryOk with status := "paid" }

/-- An attempt to move a paid salary payment back to `approved`. -/
def salaryApproveAttempt : expense_assertions.SalaryPaymentData :=
  { salaryOk with status := "approved", approved_by := some "admin" }

/-- A fee item that is partially paid. -/
def feeItemSample : fees.FeeItemData :=
  { category_id := "cat-1", category_name := "Tuition", fee_type := "tuition",
    amount := 1000, amount_paid := 400, balance := 600,
    is_mandatory := true, is_optional := none, is_selected := none }

/-- A fee assignment whose balance reconciles: 600 = 1000 - 400, status
`partial`. -/
def feeAssignmentPartial : fees.StudentFeeAssignmentData :=
  { student_id := "stu-1", student_name := "Ada Obi", class_id := "jss1",
    fee_structure_id := "fs-1", academic_year := "2024-2025", term := "first",
    fee_items := [feeItemSample], original_amount := none,
    total_amount := 1000, amount_paid := 400, balance := 600,
    status := "partial", due_date := none, scholarship_id := none,
    scholarship_name := none, scholarship_type := none,
    scholarship_value := none, discount_amount := none }

/-- A zero-amount fee assignment: total 0, paid 0, balance 0. -/
def feeAssignmentZero : fees.StudentFeeAssignmentData :=
  { feeAssignmentPartial with
    fee_items := [{ feeItemSample with amount := 0, amount_paid := 0, balance := 0 }],
    total_amount := 0, amount_paid := 0, balance := 0, status := "unpaid" }

/-- A bank transaction with both a positive debit and a positive credit. -/
def txnBothPositive : banking.BankTransactionData :=
  { debitAmount := some 100, creditAmount := some 50, balance := none,
    status := none, isReconciled := none }

/-- A bank transaction with debit and credit both zero. -/
def txnBothZero : banking.BankTransactionData :=
  { txnBothPositive with debitAmount := some 0, creditAmount := some 0 }

/-- A bank transaction with a positive debit and a zero credit. -/
def txnDebitOnly : banking.BankTransactionData :=
  { txnBothPositive with creditAmount := some 0 }

/-- The transfer of the spec's scenario: amount 6,000,000 proposed directly
as `completed`, with no approver fields. -/
def transferBase : banking.TransferData :=
  { fromAccountId := some "acc-1", toAccountId := some "acc-2",
    amount := some 6000000, status := some "completed",
    approvedBy := none, approvedAt := none }

/-- The same transfer with an approver but no approval timestamp. -/
def transferApprovedNoTimestamp : banking.TransferData :=
  { transferBase with approvedBy := some "admin" }

/-- The same transfer with both approver and approval timestamp. -/
def transferApproved : banking.TransferData :=
  { transferApprovedNoTimestamp with approvedAt := some 1700000000 }

/-! ### Helper lemmas -/

/-- `splitChar` on a list without the separator yields that list as the one
segment. -/
theorem splitChar_not_mem {c : Char} {l : List Char} (h : c ∉ l) :
    splitChar c l = [l] := by
  induction l with
  | nil => rfl
  | cons x xs ih =>
    have hx : ¬ x = c := fun hxc => h (hxc ▸ List.mem_cons_self x xs)
    have hxs : c ∉ xs := fun hm => h (List.mem_cons_of_mem _ hm)
    simp [splitChar, hx, ih hxs]

/-- `splitChar` peels off a separator-free first segment. -/
theorem splitChar_append {c : Char} {l₁ : List Char} (l₂ : List Char)
    (h : c ∉ l₁) : splitChar c (l₁ ++ c :: l₂) = l₁ :: splitChar c l₂ := by
  induction l₁ with
  | nil => simp [splitChar]
  | cons x xs ih =>
    have hx : ¬ x = c := fun hxc => h (hxc ▸ List.mem_cons_self x xs)
    have hxs : c ∉ xs := fun hm => h (List.mem_cons_of_mem _ hm)
    simp [splitChar, hx, ih hxs]

/-- A list of digit characters does not contain a hyphen. -/
theorem hyphen_not_mem_of_digits {l : List Char}
    (h : l.all Char.isDigit = true) : '-' ∉ l := fun hm =>
  absurd (List.all_eq_true.mp h _ hm) (by decide)

/-- A list of alphanumeric characters does not contain a hyphen. -/
theorem hyphen_not_mem_of_alnum {l : List Char}
    (h : l.all Char.isAlphanum = true) : '-' ∉ l := fun hm =>
  absurd (List.all_eq_true.mp h _ hm) (by decide)

/-- Inverting `Except.bind` at a successful unit result. -/
theorem except_seq_ok {x : Except String Unit} {f : Unit → Except String Unit}
    (h : (x >>= f) = .ok ()) : x = .ok () ∧ f () = .ok () := by
  cases x with
  | ok a => exact ⟨rfl, h⟩
  | error e => exact absurd h (by simp [Bind.bind, Except.bind])

/-- The conflict scan succeeds exactly when every returned key is the key of
the record being updated. -/
theorem refConflictScan_ok_iff (u : Bool) (key err : String) (l : List String) :
    expense_assertions.refConflictScan u key err l = .ok () ↔
      ∀ k ∈ l, u = true ∧ k = key := by
  induction l with
  | nil => simp [expense_assertions.refConflictScan]
  | cons k rest ih =>
    by_cases hk : u = true ∧ k = key
    · obtain ⟨hu, hkey⟩ := hk
      subst hu
      subst hkey
      simp [expense_assertions.refConflictScan, ih]
    · simp only [expense_assertions.refConflictScan, if_neg hk]
      simp [hk]

/-- The allowance loop, when it succeeds, returns its accumulator plus the
sum of the amounts. -/
theorem allowancesLoop_ok_sum :
    ∀ (l : List expense_assertions.PaymentAllowanceItem) (i : ℕ)
      (seen : List String) (total t : ℚ),
      expense_assertions.allowancesLoop l i seen total = .ok t →
      t = total + (l.map fun a => a.amount).sum := by
  intro l
  induction l with
  | nil =>
    intro i seen total t h
    simp only [expense_assertions.allowancesLoop] at h
    cases h
    simp
  | cons a rest ih =>
    intro i seen total t h
    simp only [expense_assertions.allowancesLoop] at h
    split at h
    · exact absurd h (by simp)
    · split at h
      · exact absurd h (by simp)
      · split at h
        · exact absurd h (by simp)
        · have := ih _ _ _ _ h
          simp only [this, List.map_cons, List.sum_cons]
          ring

/-- The deduction loop, when it succeeds, returns its accumulator plus the
sum of the amounts. -/
theorem deductionsLoop_ok_sum :
    ∀ (l : List expense_assertions.PaymentDeductionItem) (i : ℕ)
      (seen : List String) (total t : ℚ),
      expense_assertions.deductionsLoop l i seen total = .ok t →
      t = total + (l.map fun d => d.amount).sum := by
  intro l
  induction l with
  | nil =>
    intro i seen total t h
    simp only [expense_assertions.deductionsLoop] at h
    cases h
    simp
  | cons d rest ih =>
    intro i seen total t h
    simp only [expense_assertions.deductionsLoop] at h
    split at h
    · exact absurd h (by simp)
    · split at h
      · exact absurd h (by simp)
      · split at h
        · exact absurd h (by simp)
        · have := ih _ _ _ _ h
          simp only [this, List.map_cons, List.sum_cons]
          ring

/-- `Except.bind` of a successful unit computation runs the continuation. -/
theorem except_ok_seq {α : Type} (f : Unit → Except String α) :
    (Except.ok () >>= f) = f () := rfl

/-! ### Claim theorems -/

/-- C1: For expenses, payments, and salary payments, an update whose previous
status `from` and proposed status `to` differ and do not form an edge of the
entity's fixed transition graph is rejected with a transition error naming the
pair; terminal statuses (`paid`, `rejected`, `cancelled`, `refunded`) have an
empty successor list in their graphs, so every transition out of them is such
a non-edge. -/
theorem c1_transition_graph_enforced :
    (∀ (before proposed : expense_assertions.ExpenseData) (allowed : List String),
      expense_assertions.expense_valid_transitions before.status = some allowed →
      before.status ≠ proposed.status →
      proposed.status ∉ allowed →
      expense_assertions.validate_expense_status_transition (some before) proposed =
        .error ("Invalid status transition from '" ++ before.status ++ "' to '" ++
          proposed.status ++ "'. Allowed transitions: [" ++
          String.intercalate ", " allowed ++ "]")) ∧
    (∀ (before payment : expense_assertions.PaymentData) (allowed : List String),
      expense_assertions.payment_valid_statuses.contains payment.status = true →
      expense_assertions.payment_valid_transitions before.status = some allowed →
      before.status ≠ payment.status →
      payment.status ∉ allowed →
      expense_assertions.validate_payment_status_transitions (some before) payment =
        .error ("Invalid status transition from '" ++ before.status ++ "' to '" ++
          payment.status ++ "'. Allowed: [" ++
          String.intercalate ", " allowed ++ "]")) ∧
    (∀ (before salary : expense_assertions.SalaryPaymentData) (allowed : List String),
      expense_assertions.salary_valid_statuses.contains salary.status = true →
      expense_assertions.salary_valid_transitions before.status = some allowed →
      before.status ≠ salary.status →
      salary.status ∉ allowed →
      expense_assertions.validate_salary_status_transitions (some before) salary =
        .error ("Invalid status transition from '" ++ before.status ++ "' to '" ++
          salary.status ++ "'. Allowed: [" ++
          String.intercalate ", " allowed ++ "]")) := by
  refine ⟨?_, ?_, ?_⟩
  · intro before proposed allowed htab hne hnm
    simp only [expense_assertions.validate_expense_status_transition, htab]
    rw [if_pos hne]
    rw [if_pos (show ¬ allowed.contains proposed.status = true by simpa using hnm)]
    rfl
  · intro before payment allowed hvocab htab hne hnm
    simp only [expense_assertions.validate_payment_status_transitions, htab]
    rw [if_neg (not_not_intro hvocab)]
    rw [if_pos hne]
    rw [if_pos (show ¬ allowed.contains payment.status = true by simpa using hnm)]
    rfl
  · intro before salary allowed hvocab htab hne hnm
    simp only [expense_assertions.validate_salary_status_transitions, htab]
    rw [if_neg (not_not_intro hvocab)]
    rw [if_pos hne]
    rw [if_pos (show ¬ allowed.contains salary.status = true by simpa using hnm)]
    rfl

/-- C1 at concrete inputs: a paid expense proposed as pending, a cancelled
payment proposed as pending, and a paid salary payment proposed as approved
are all rejected with the transition error. -/
theorem c1_transition_graph_enforced_witness :
    expense_assertions.validate_expense_status_transition (some expensePaid) expenseReopen =
      .error ("Invalid status transition from '" ++ expensePaid.status ++ "' to '" ++
        expenseReopen.status ++ "'. Allowed transitions: [" ++
        String.intercalate ", " [] ++ "]") ∧
    expense_assertions.validate_payment_status_transitions
        (some paymentCancelled) paymentAllocGood =
      .error ("Invalid status transition from '" ++ paymentCancelled.status ++ "' to '" ++
        paymentAllocGood.status ++ "'. Allowed: [" ++
        String.intercalate ", " [] ++ "]") ∧
    expense_assertions.validate_salary_status_transitions
        (some salaryPaid) salaryApproveAttempt =
      .error ("Invalid status transition from '" ++ salaryPaid.status ++ "' to '" ++
        salaryApproveAttempt.status ++ "'. Allowed: [" ++
        String.intercalate ", " [] ++ "]") :=
  ⟨c1_transition_graph_enforced.1 expensePaid expenseReopen [] rfl
      (by decide) (by decide),
   c1_transition_graph_enforced.2.1 paymentCancelled paymentAllocGood [] rfl rfl
      (by decide) (by decide),
   c1_transition_graph_enforced.2.2 salaryPaid salaryApproveAttempt [] rfl rfl
      (by decide) (by decide)⟩

/-- C8: When the proposed status equals the previous status, the
transition-graph check is skipped for expenses, payments, and salary
payments: the validator returns exactly the companion-field check for that
current status, so no transition error can occur and no other status's
companion-field requirements are consulted. -/
theorem c8_same_status_skips_transition_check :
    (∀ (before proposed : expense_assertions.ExpenseData),
      before.status = proposed.status →
      expense_assertions.validate_expense_status_transition (some before) proposed =
        expense_assertions.expenseCompanionOnTransition proposed) ∧
    (∀ (before payment : expense_assertions.PaymentData),
      before.status = payment.status →
      expense_assertions.payment_valid_statuses.contains payment.status = true →
      expense_assertions.validate_payment_status_transitions (some before) payment =
        expense_assertions.paymentCompanionOnTransition payment) ∧
    (∀ (before salary : expense_assertions.SalaryPaymentData),
      before.status = salary.status →
      expense_assertions.salary_valid_statuses.contains salary.status = true →
      expense_assertions.validate_salary_status_transitions (some before) salary =
        expense_assertions.salaryCompanionOnTransition salary) := by
  refine ⟨?_, ?_, ?_⟩
  · intro before proposed h
    simp only [expense_assertions.validate_expense_status_transition]
    rw [if_neg (not_not_intro h)]
    rfl
  · intro before payment h hvocab
    simp only [expense_assertions.validate_payment_status_transitions]
    rw [if_neg (not_not_intro hvocab)]
    rw [if_neg (not_not_intro h)]
    rfl
  · intro before salary h hvocab
    simp only [expense_assertions.validate_salary_status_transitions]
    rw [if_neg (not_not_intro hvocab)]
    rw [if_neg (not_not_intro h)]
    rfl

/-- C8 at concrete inputs: resubmitting a paid expense, a cancelled payment,
and a pending salary payment unchanged runs only the current status's
companion check. -/
theorem c8_same_status_skips_transition_check_witness :
    expense_assertions.validate_expense_status_transition (some expensePaid) expensePaid =
      expense_assertions.expenseCompanionOnTransition expensePaid ∧
    expense_assertions.validate_payment_status_transitions
        (some paymentCancelled) paymentCancelled =
      expense_assertions.paymentCompanionOnTransition paymentCancelled ∧
    expense_assertions.validate_salary_status_transitions (some salaryOk) salaryOk =
      expense_assertions.salaryCompanionOnTransition salaryOk :=
  ⟨c8_same_status_skips_transition_check.1 expensePaid expensePaid rfl,
   c8_same_status_skips_transition_check.2.1 paymentCancelled paymentCancelled rfl
     (by decide),
   c8_same_status_skips_transition_check.2.2 salaryOk salaryOk rfl (by decide)⟩

/-- C3: Creating an expense (no previous record) with status `pending`
passes the initial-status check of `validate_expense_status_transition`; and
an update of a pending expense to status `approved` with `approved_by` absent
is rejected with the companion-field error. -/
theorem c3_pending_create_and_approval_companion :
    (∀ proposed : expense_assertions.ExpenseData, proposed.status = "pending" →
      expense_assertions.validate_expense_status_transition none proposed = .ok ()) ∧
    (∀ before proposed : expense_assertions.ExpenseData,
      before.status = "pending" → proposed.status = "approved" →
      proposed.approved_by = none →
      expense_assertions.validate_expense_status_transition (some before) proposed =
        .error "Approved expenses must have approved_by field set") := by
  constructor
  · intro proposed h
    simp only [expense_assertions.validate_expense_status_transition]
    rw [if_neg (not_not_intro h)]
  · intro before proposed hb hp hab
    obtain ⟨_, _, _, _, _, _, _, _, _, _, _, _, pst, pab, paa, pnt, _, _, _⟩ := proposed
    obtain ⟨_, _, _, _, _, _, _, _, _, _, _, _, bst, _, _, _, _, _, _⟩ := before
    dsimp only at hb hp hab
    subst hb
    subst hp
    subst hab
    rfl

/-- C3 at the spec's concrete scenario: the pending expense (amount 1500.00,
reference `EXP-2024-AB12CD34`) passes the initial-status check on create, and
its update to `approved` without an approver is rejected. -/
theorem c3_pending_create_and_approval_companion_witness :
    expense_assertions.validate_expense_status_transition none expensePending = .ok () ∧
    expense_assertions.validate_expense_status_transition
        (some expensePending) expenseApprovedNoApprover =
      .error "Approved expenses must have approved_by field set" :=
  ⟨c3_pending_create_and_approval_companion.1 expensePending rfl,
   c3_pending_create_and_approval_companion.2 expensePending expenseApprovedNoApprover
     rfl rfl rfl⟩

/-- C4: A payment accepted by the fee-allocation check has an allocation sum
within 0.01 of its declared amount; and a payment whose allocation sum
deviates by more than 0.01 (with a non-empty allocation list of at most 20
entries, the two conditions checked first) is rejected with the error quoting
both values. -/
theorem c4_allocation_sum_reconciles :
    (∀ payment : expense_assertions.PaymentData,
      expense_assertions.validate_payment_allocations payment = .ok () →
      |payment.amount - (payment.fee_allocations.map fun a => a.amount).sum| ≤ 0.01) ∧
    (∀ payment : expense_assertions.PaymentData,
      0.01 < |payment.amount - (payment.fee_allocations.map fun a => a.amount).sum| →
      payment.fee_allocations ≠ [] →
      payment.fee_allocations.length ≤ 20 →
      expense_assertions.validate_payment_allocations payment =
        .error ("Payment amount (₦" ++ fmt2 payment.amount ++
          ") must match sum of fee allocations (₦" ++
          fmt2 ((payment.fee_allocations.map fun a => a.amount).sum) ++ ")")) := by
  constructor
  · intro payment h
    simp only [expense_assertions.validate_payment_allocations] at h
    split at h
    · exact absurd h (by simp)
    · split at h
      · exact absurd h (by simp)
      · split at h
        · exact absurd h (by simp)
        · rename_i h3
          exact le_of_not_lt h3
  · intro payment hdev hne hlen
    simp only [expense_assertions.validate_payment_allocations]
    rw [if_neg (by simpa using hne)]
    rw [if_neg (not_lt.mpr hlen)]
    rw [if_pos hdev]

/-- C4 at concrete inputs: a payment of 5000 with allocations 3000 + 2000 is
within tolerance, and the same payment with only the 3000 allocation is
rejected with the error quoting 5000.00 and 3000.00. -/
theorem c4_allocation_sum_reconciles_witness :
    |paymentAllocGood.amount -
      (paymentAllocGood.fee_allocations.map fun a => a.amount).sum| ≤ 0.01 ∧
    expense_assertions.validate_payment_allocations paymentAllocBad =
      .error ("Payment amount (₦" ++ fmt2 paymentAllocBad.amount ++
        ") must match sum of fee allocations (₦" ++
        fmt2 ((paymentAllocBad.fee_allocations.map fun a => a.amount).sum) ++ ")") := by
  constructor
  · apply c4_allocation_sum_reconciles.1
    have e1 : trim_is_empty "cat-1" = false := by decide
    have e2 : trim_is_empty "cat-2" = false := by decide
    have e3 : trim_is_empty "Tuition" = false := by decide
    have e4 : trim_is_empty "Books" = false := by decide
    have e5 : trim_is_empty "tuition" = false := by decide
    have e6 : trim_is_empty "books" = false := by decide
    have f1 : "tuition" ∈ expense_assertions.valid_fee_types := by decide
    have f2 : "books" ∈ expense_assertions.valid_fee_types := by decide
    norm_num [expense_assertions.validate_payment_allocations,
      expense_assertions.allocationItemsLoop, paymentAllocGood,
      e1, e2, e3, e4, e5, e6, f1, f2]
  · apply c4_allocation_sum_reconciles.2
    · norm_num [paymentAllocBad, paymentAllocGood]
    · simp [paymentAllocBad, paymentAllocGood]
    · norm_num [paymentAllocBad, paymentAllocGood]

/-- C5: A salary payment accepted by
`validate_salary_amounts_and_calculations` has total gross within 0.01 of
basic salary plus the allowance sum and net pay within 0.01 of total gross
minus total deductions; and a student fee assignment accepted by
`validate_student_fee_assignment` has balance within 0.01 of total amount
minus amount paid. -/
theorem c5_declared_totals_reconcile :
    (∀ salary : expense_assertions.SalaryPaymentData,
      expense_assertions.validate_salary_amounts_and_calculations salary = .ok () →
      |salary.total_gross - (salary.basic_salary +
        (salary.allowances.map fun a => a.amount).sum)| ≤ 0.01 ∧
      |salary.net_pay - (salary.total_gross - salary.total_deductions)| ≤ 0.01) ∧
    (∀ data : fees.StudentFeeAssignmentData,
      fees.validate_student_fee_assignment data = .ok () →
      |data.balance - (data.total_amount - data.amount_paid)| ≤ 0.01) := by
  constructor
  · intro salary h
    simp only [expense_assertions.validate_salary_amounts_and_calculations] at h
    split at h
    · exact absurd h (by simp)
    split at h
    · exact absurd h (by simp)
    split at h
    · exact absurd h (by simp)
    split at h
    · exact absurd h (by simp)
    rename_i tA heqA
    split at h
    · exact absurd h (by simp)
    split at h
    · exact absurd h (by simp)
    rename_i tD heqD
    split at h
    · exact absurd h (by simp)
    rename_i hgross
    split at h
    · exact absurd h (by simp)
    split at h
    · exact absurd h (by simp)
    rename_i hnet
    have hsum := allowancesLoop_ok_sum _ _ _ _ _ heqA
    rw [zero_add] at hsum
    rw [hsum] at hgross
    exact ⟨le_of_not_lt hgross, le_of_not_lt hnet⟩
  · intro data h
    unfold fees.validate_student_fee_assignment at h
    obtain ⟨-, h⟩ := except_seq_ok h
    obtain ⟨-, h⟩ := except_seq_ok h
    obtain ⟨-, h⟩ := except_seq_ok h
    unfold fees.feeAmountsStatusCheck at h
    split at h
    · exact absurd h (by simp)
    split at h
    · exact absurd h (by simp)
    split at h
    · exact absurd h (by simp)
    rename_i hbal
    exact le_of_not_lt hbal

/-- C5 at concrete inputs: the salary payment with basic 200000, allowances
50000, deductions 30000, gross 250000, net 220000 and the fee assignment
1000/400/600 both pass their checks, so their declared totals reconcile. -/
theorem c5_declared_totals_reconcile_witness :
    (|salaryOk.total_gross - (salaryOk.basic_salary +
        (salaryOk.allowances.map fun a => a.amount).sum)| ≤ 0.01 ∧
     |salaryOk.net_pay - (salaryOk.total_gross - salaryOk.total_deductions)| ≤ 0.01) ∧
    |feeAssignmentPartial.balance - (feeAssignmentPartial.total_amount -
        feeAssignmentPartial.amount_paid)| ≤ 0.01 := by
  constructor
  · apply c5_declared_totals_reconcile.1
    have e1 : trim_is_empty "Housing" = false := by decide
    have e2 : trim_is_empty "Tax" = false := by decide
    norm_num [expense_assertions.validate_salary_amounts_and_calculations,
      expense_assertions.allowancesLoop, expense_assertions.deductionsLoop,
      salaryOk, e1, e2]
  · apply c5_declared_totals_reconcile.2
    have e1 : trim_is_empty "stu-1" = false := by decide
    have e2 : trim_is_empty "Ada Obi" = false := by decide
    have e3 : trim_is_empty "jss1" = false := by decide
    have e4 : trim_is_empty "fs-1" = false := by decide
    have e5 : trim_is_empty "2024-2025" = false := by decide
    have e6 : trim_is_empty "cat-1" = false := by decide
    have t1 : "first" ∈ (["first", "second", "third"] : List String) := by decide
    have s1 : "partial" ∈ (["unpaid", "partial", "paid", "overpaid"] : List String) := by
      decide
    norm_num [fees.validate_student_fee_assignment, fees.feeRequiredFieldsCheck,
      fees.feeItemsLoop, fees.feeScholarshipCheck, fees.feeAmountsStatusCheck,
      feeAssignmentPartial, feeItemSample, Bind.bind, Except.bind,
      e1, e2, e3, e4, e5, e6, t1, s1]

/-- C10: A student fee assignment with total amount 0, amount paid 0, and
balance 0 is rejected whatever status it declares: the rule demanding
`unpaid` when amountPaid is 0 and the rule demanding `paid` when balance is 0
cannot both hold. -/
theorem c10_zero_fee_assignment_never_accepted :
    ∀ data : fees.StudentFeeAssignmentData,
      data.total_amount = 0 → data.amount_paid = 0 → data.balance = 0 →
      fees.validate_student_fee_assignment data ≠ .ok () := by
  intro data h0 hp hb h
  unfold fees.validate_student_fee_assignment at h
  obtain ⟨-, h⟩ := except_seq_ok h
  obtain ⟨-, h⟩ := except_seq_ok h
  obtain ⟨-, h⟩ := except_seq_ok h
  unfold fees.feeAmountsStatusCheck at h
  split at h
  · exact absurd h (by simp)
  split at h
  · exact absurd h (by simp)
  split at h
  · exact absurd h (by simp)
  split at h
  · exact absurd h (by simp)
  split at h
  · exact absurd h (by simp)
  rename_i hunpaid
  split at h
  · exact absurd h (by simp)
  rename_i hpaid
  push_neg at hunpaid hpaid
  exact absurd ((hunpaid hp).symm.trans (hpaid hb)) (by decide)

/-- C10 at a concrete input: the all-zero fee assignment (here declared
`unpaid`) is rejected. -/
theorem c10_zero_fee_assignment_never_accepted_witness :
    feeAssignmentZero.total_amount = 0 ∧ feeAssignmentZero.amount_paid = 0 ∧
    feeAssignmentZero.balance = 0 ∧
    fees.validate_student_fee_assignment feeAssignmentZero ≠ .ok () :=
  ⟨rfl, rfl, rfl,
   c10_zero_fee_assignment_never_accepted feeAssignmentZero rfl rfl rfl⟩

/-- C6: A bank transaction passes `validate_bank_transaction` only when its
debit and credit are both non-negative and exactly one of them is strictly
positive; both positive is rejected with the double-entry error, both zero
with the non-zero-amount error. -/
theorem c6_double_entry_integrity :
    (∀ (data : banking.BankTransactionData) (debit credit : ℚ),
      data.debitAmount = some debit → data.creditAmount = some credit →
      banking.validate_bank_transaction data = .ok () →
      0 ≤ debit ∧ 0 ≤ credit ∧
        ((0 < debit ∧ credit = 0) ∨ (0 < credit ∧ debit = 0))) ∧
    (∀ (data : banking.BankTransactionData) (debit credit : ℚ),
      data.debitAmount = some debit → data.creditAmount = some credit →
      0 < debit → 0 < credit →
      banking.validate_bank_transaction data =
        .error "SECURITY: Transaction cannot have both debit and credit amounts") ∧
    (∀ data : banking.BankTransactionData,
      data.debitAmount = some 0 → data.creditAmount = some 0 →
      banking.validate_bank_transaction data =
        .error "SECURITY: Transaction must have a non-zero amount") := by
  refine ⟨?_, ?_, ?_⟩
  · intro data debit credit hd hc h
    obtain ⟨da, ca, bal, st, rec⟩ := data
    dsimp only at hd hc
    subst hd
    subst hc
    simp only [banking.validate_bank_transaction] at h
    split at h
    · exact absurd h (by simp)
    rename_i hneg
    split at h
    · exact absurd h (by simp)
    rename_i hboth
    split at h
    · exact absurd h (by simp)
    rename_i hzero
    push_neg at hneg hboth hzero
    refine ⟨hneg.1, hneg.2, ?_⟩
    rcases eq_or_lt_of_le hneg.1 with h1 | h1
    · exact Or.inr ⟨lt_of_le_of_ne hneg.2 (Ne.symm (hzero h1.symm)), h1.symm⟩
    · exact Or.inl ⟨h1, le_antisymm (hboth h1) hneg.2⟩
  · intro data debit credit hd hc hdp hcp
    obtain ⟨da, ca, bal, st, rec⟩ := data
    dsimp only at hd hc
    subst hd
    subst hc
    simp only [banking.validate_bank_transaction]
    rw [if_neg (by push_neg; exact ⟨le_of_lt hdp, le_of_lt hcp⟩)]
    rw [if_pos ⟨hdp, hcp⟩]
  · intro data hd hc
    obtain ⟨da, ca, bal, st, rec⟩ := data
    dsimp only at hd hc
    subst hd
    subst hc
    simp only [banking.validate_bank_transaction]
    norm_num

/-- C6 at concrete inputs: debit 100 with credit 50 is rejected with the
double-entry error, debit 0 with credit 0 is rejected with the
non-zero-amount error, and debit 100 with credit 0 is accepted, hence
satisfies the exactly-one-positive characterization. -/
theorem c6_double_entry_integrity_witness :
    banking.validate_bank_transaction txnBothPositive =
      .error "SECURITY: Transaction cannot have both debit and credit amounts" ∧
    banking.validate_bank_transaction txnBothZero =
      .error "SECURITY: Transaction must have a non-zero amount" ∧
    (0 ≤ (100 : ℚ) ∧ 0 ≤ (0 : ℚ) ∧
      ((0 < (100 : ℚ) ∧ (0 : ℚ) = 0) ∨ (0 < (0 : ℚ) ∧ (100 : ℚ) = 0))) :=
  ⟨c6_double_entry_integrity.2.1 txnBothPositive 100 50 rfl rfl
     (by norm_num) (by norm_num),
   c6_double_entry_integrity.2.2 txnBothZero rfl rfl,
   c6_double_entry_integrity.1 txnDebitOnly 100 0 rfl rfl
     (by norm_num [banking.validate_bank_transaction, txnDebitOnly,
       txnBothPositive, banking.MAX_SINGLE_TRANSACTION, Bind.bind, Except.bind])⟩

/-- C7: A transfer between distinct accounts with amount above the
no-approval ceiling (and within the fraud ceiling) proposed as `completed` is
rejected with the approval-required error when the approver is absent or
blank, rejected with the audit error when the approval timestamp is absent,
and accepted when both are present. -/
theorem c7_transfer_approval_threshold :
    ∀ (data : banking.TransferData) (from_id to_id : String) (amount : ℚ),
      data.fromAccountId = some from_id → data.toAccountId = some to_id →
      from_id ≠ to_id → data.amount = some amount →
      banking.MAX_TRANSFER_WITHOUT_APPROVAL < amount →
      amount ≤ banking.MAX_SINGLE_TRANSACTION →
      data.status = some "completed" →
      (blankOpt data.approvedBy = true →
        banking.validate_transfer data =
          .error ("APPROVAL REQUIRED: Transfers over ₦" ++
            fmt2 banking.MAX_TRANSFER_WITHOUT_APPROVAL ++
            " require approval before completion")) ∧
      (∀ s, data.approvedBy = some s → trim_is_empty s = false →
        data.approvedAt = none →
        banking.validate_transfer data =
          .error "AUDIT: Approved transfers must have approvedAt timestamp") ∧
      (∀ s t, data.approvedBy = some s → trim_is_empty s = false →
        data.approvedAt = some t →
        banking.validate_transfer data = .ok ()) := by
  intro data from_id to_id amount hf ht hne ha hthr hmax hst
  obtain ⟨fa, ta, am, st, ab, aat⟩ := data
  dsimp only at hf ht ha hst ⊢
  subst hf
  subst ht
  subst ha
  subst hst
  have hpos : (0 : ℚ) < amount :=
    lt_trans (by norm_num [banking.MAX_TRANSFER_WITHOUT_APPROVAL]) hthr
  have hcommon : banking.validate_transfer
      ⟨some from_id, some to_id, some amount, some "completed", ab, aat⟩ =
      (if blankOpt ab then
        .error ("APPROVAL REQUIRED: Transfers over ₦" ++
          fmt2 banking.MAX_TRANSFER_WITHOUT_APPROVAL ++
          " require approval before completion")
      else
        match aat with
        | none => .error "AUDIT: Approved transfers must have approvedAt timestamp"
        | some _ => .ok ()) := by
    simp only [banking.validate_transfer]
    rw [if_neg hne]
    rw [show banking.validate_positive_amount amount "Transfer amount" = Except.ok ()
      from by
        unfold banking.validate_positive_amount
        rw [if_neg (not_le.mpr hpos)]]
    rw [except_ok_seq]
    rw [if_neg (not_lt.mpr hmax)]
    rw [if_neg (not_not_intro (by decide :
      (["pending", "approved", "completed", "rejected", "cancelled"].contains
        "completed") = true))]
    rw [if_pos ⟨hthr, by trivial⟩]
  refine ⟨?_, ?_, ?_⟩
  · intro hblank
    rw [hcommon, if_pos hblank]
  · intro s hs hsne hat
    subst hs
    subst hat
    rw [hcommon, if_neg (by simp [blankOpt, hsne])]
  · intro s t hs hsne hat
    subst hs
    subst hat
    rw [hcommon, if_neg (by simp [blankOpt, hsne])]

/-- C7 at the spec's scenario: the 6,000,000 transfer proposed as `completed`
is rejected without an approver, rejected with an approver but no timestamp,
and accepted with both. -/
theorem c7_transfer_approval_threshold_witness :
    banking.validate_transfer transferBase =
      .error ("APPROVAL REQUIRED: Transfers over ₦" ++
        fmt2 banking.MAX_TRANSFER_WITHOUT_APPROVAL ++
        " require approval before completion") ∧
    banking.validate_transfer transferApprovedNoTimestamp =
      .error "AUDIT: Approved transfers must have approvedAt timestamp" ∧
    banking.validate_transfer transferApproved = .ok () :=
  ⟨(c7_transfer_approval_threshold transferBase "acc-1" "acc-2" 6000000
      rfl rfl (by decide) rfl
      (by norm_num [banking.MAX_TRANSFER_WITHOUT_APPROVAL])
      (by norm_num [banking.MAX_SINGLE_TRANSACTION]) rfl).1 rfl,
   (c7_transfer_approval_threshold transferApprovedNoTimestamp "acc-1" "acc-2" 6000000
      rfl rfl (by decide) rfl
      (by norm_num [banking.MAX_TRANSFER_WITHOUT_APPROVAL])
      (by norm_num [banking.MAX_SINGLE_TRANSACTION]) rfl).2.1 "admin"
      rfl (by decide) rfl,
   (c7_transfer_approval_threshold transferApproved "acc-1" "acc-2" 6000000
      rfl rfl (by decide) rfl
      (by norm_num [banking.MAX_TRANSFER_WITHOUT_APPROVAL])
      (by norm_num [banking.MAX_SINGLE_TRANSACTION]) rfl).2.2 "admin" 1700000000
      rfl (by decide) rfl⟩

/-- C9: With the reference format valid, the uniqueness check rejects exactly
when the store query returned a document whose key differs from the record's
own key. For the lib.rs variant (`is_update` from `before.is_some()`) this
holds whenever a create's query result cannot contain the record's own key;
for the payments-module variant (`is_update` from `!key.is_empty()`) it holds
whenever the record's key is non-empty. -/
theorem c9_reference_uniqueness_conflict_set :
    (∀ (existing_keys : List String) (before_present : Bool) (ctx_key : String)
       (payment : expense_assertions.PaymentData),
      "PAY-".data.isPrefixOf payment.reference.data = true →
      expense_assertions.is_valid_payment_reference payment.reference = true →
      (before_present = false → ctx_key ∉ existing_keys) →
      (expense_assertions.validate_payment_reference_uniqueness existing_keys
          before_present ctx_key payment ≠ .ok () ↔
        ∃ k ∈ existing_keys, k ≠ ctx_key)) ∧
    (∀ (existing_keys : List String) (ctx_key : String)
       (payment : expense_assertions.PaymentData),
      "PAY-".data.isPrefixOf payment.reference.data = true →
      expense_assertions.is_valid_payment_reference payment.reference = true →
      ctx_key ≠ "" →
      (payments.validate_payment_reference_uniqueness existing_keys ctx_key
          payment ≠ .ok () ↔
        ∃ k ∈ existing_keys, k ≠ ctx_key)) := by
  constructor
  · intro keys bp key payment hpre hfmt hcons
    unfold expense_assertions.validate_payment_reference_uniqueness
    rw [if_neg (not_not_intro hpre), if_neg (not_not_intro hfmt)]
    rw [Ne, refConflictScan_ok_iff]
    constructor
    · intro hni
      push_neg at hni
      obtain ⟨k, hk, hnk⟩ := hni
      by_cases hbp : bp = true
      · exact ⟨k, hk, hnk hbp⟩
      · have hbf : bp = false := by
          cases bp
          · rfl
          · exact absurd rfl hbp
        exact ⟨k, hk, fun hkeq => (hcons hbf) (hkeq ▸ hk)⟩
    · rintro ⟨k, hk, hkne⟩ hall
      exact hkne (hall k hk).2
  · intro keys key payment hpre hfmt hkey
    unfold payments.validate_payment_reference_uniqueness
    rw [if_neg (not_not_intro hpre), if_neg (not_not_intro hfmt)]
    rw [Ne, refConflictScan_ok_iff]
    have hbt : (key != "") = true := by simpa using hkey
    constructor
    · intro hni
      push_neg at hni
      obtain ⟨k, hk, hnk⟩ := hni
      exact ⟨k, hk, hnk hbt⟩
    · rintro ⟨k, hk, hkne⟩ hall
      exact hkne (hall k hk).2

/-- C9 at concrete inputs: a well-formed reference, an update of document
`doc1`, and a query returning the other document `doc2`: both variants
reject, and do so exactly because `doc2` differs from `doc1`. -/
theorem c9_reference_uniqueness_conflict_set_witness :
    (expense_assertions.validate_payment_reference_uniqueness ["doc2"] true "doc1"
        paymentAllocGood ≠ .ok () ↔ ∃ k ∈ ["doc2"], k ≠ "doc1") ∧
    (payments.validate_payment_reference_uniqueness ["doc2"] "doc1"
        paymentAllocGood ≠ .ok () ↔ ∃ k ∈ ["doc2"], k ≠ "doc1") :=
  ⟨c9_reference_uniqueness_conflict_set.1 ["doc2"] true "doc1" paymentAllocGood
      (by decide) (by decide) (by decide),
   c9_reference_uniqueness_conflict_set.2 ["doc2"] "doc1" paymentAllocGood
      (by decide) (by decide) (by decide)⟩

/-- C2: Every string `SAL-` + 4-digit year + `-` + 2-digit month (01-12) +
`-` + 6 alphanumeric characters (18 characters in total) is accepted by the
`validation_utils` salary reference validator, but rejected by the
`is_valid_salary_reference` of the wired lib.rs pipeline, whose length check
demands 16 characters. -/
theorem c2_salary_reference_shape (y m x : String)
    (hy4 : y.data.length = 4) (hyd : y.data.all Char.isDigit = true)
    (hm2 : m.data.length = 2) (hmd : m.data.all Char.isDigit = true)
    (hm1 : 1 ≤ digitsToNat m.data) (hm12 : digitsToNat m.data ≤ 12)
    (hx6 : x.data.length = 6) (hxd : x.data.all Char.isAlphanum = true) :
    validation_utils.is_valid_salary_reference
      ("SAL-" ++ y ++ "-" ++ m ++ "-" ++ x) = true ∧
    expense_assertions.is_valid_salary_reference
      ("SAL-" ++ y ++ "-" ++ m ++ "-" ++ x) = false := by
  have hdata : ("SAL-" ++ y ++ "-" ++ m ++ "-" ++ x).data =
      ['S', 'A', 'L'] ++ '-' :: (y.data ++ '-' :: (m.data ++ '-' :: x.data)) := by
    simp [String.data_append, List.append_assoc]
  have hlen : ("SAL-" ++ y ++ "-" ++ m ++ "-" ++ x).length = 18 := by
    show ("SAL-" ++ y ++ "-" ++ m ++ "-" ++ x).data.length = 18
    rw [hdata]
    simp [hy4, hm2, hx6]
  have hsplit : splitChar '-' ("SAL-" ++ y ++ "-" ++ m ++ "-" ++ x).data =
      [['S', 'A', 'L'], y.data, m.data, x.data] := by
    rw [hdata]
    rw [splitChar_append _ (by decide)]
    rw [splitChar_append _ (hyphen_not_mem_of_digits hyd)]
    rw [splitChar_append _ (hyphen_not_mem_of_digits hmd)]
    rw [splitChar_not_mem (hyphen_not_mem_of_alnum hxd)]
  constructor
  · have hm' : ¬ (digitsToNat m.data < 1 ∨ 12 < digitsToNat m.data) := by omega
    unfold validation_utils.is_valid_salary_reference
    rw [if_neg (not_not_intro hlen), hsplit]
    show (if (['S', 'A', 'L'] : List Char) ≠ "SAL".data then false
      else if ¬ (y.data.length = 4 ∧ y.data.all Char.isDigit) then false
      else if ¬ (m.data.length = 2 ∧ m.data.all Char.isDigit) then false
      else if digitsToNat m.data < 1 ∨ 12 < digitsToNat m.data then false
      else if ¬ (x.data.length = 6 ∧ x.data.all Char.isAlphanum) then false
      else true) = true
    rw [if_neg (not_not_intro (by decide : (['S', 'A', 'L'] : List Char) = "SAL".data))]
    rw [if_neg (not_not_intro ⟨hy4, hyd⟩)]
    rw [if_neg (not_not_intro ⟨hm2, hmd⟩)]
    rw [if_neg hm']
    rw [if_neg (not_not_intro ⟨hx6, hxd⟩)]
  · unfold expense_assertions.is_valid_salary_reference
    rw [if_pos (show ("SAL-" ++ y ++ "-" ++ m ++ "-" ++ x).length ≠ 16 by
      rw [hlen]; decide)]

/-- C2 at a concrete input: the well-formed reference `SAL-2024-05-AB12CD` is
accepted by the `validation_utils` validator and rejected by the lib.rs
validator. -/
theorem c2_salary_reference_shape_witness :
    validation_utils.is_valid_salary_reference
      ("SAL-" ++ "2024" ++ "-" ++ "05" ++ "-" ++ "AB12CD") = true ∧
    expense_assertions.is_valid_salary_reference
      ("SAL-" ++ "2024" ++ "-" ++ "05" ++ "-" ++ "AB12CD") = false :=
  c2_salary_reference_shape "2024" "05" "AB12CD"
    (by decide) (by decide) (by decide) (by decide)
    (by decide) (by decide) (by decide) (by decide)
